import Mathlib

/-!
Verification of the blog-ai publish/staging/production promotion workflow.

The definitions below are a shallow embedding of the Rust sources:
  * `src/serverless/src/models.rs` (the `Article` record and its status enum),
  * `src/blog-service-rust/src/storage.rs` and
    `src/blog-service-rust/src/admin/smart_publish.rs` (the admin API
    handlers `publish_to_staging` / `publish_to_production`),
  * `src/scraper-rust/src/publisher.rs` and `src/scraper-rust/src/storage.rs`
    (the `Publisher` component: backup, promote, rollback, list_backups),
  * `src/scraper-rust/src/html_generator.rs` (`generate_article_html`).

Object storage (S3) is modelled as an association list from keys to string
contents; the DynamoDB article table as an association list from ids to
article records.  Fallible SDK calls are modelled with explicit failure
oracles: `copyFail src dst` says whether a given `copy_object` call fails
for a backend reason, and `invFail` whether the CloudFront
`create_invalidation` call fails.  A copy also fails when the source key
is absent (S3 `NoSuchKey`).  Wall-clock time is passed in explicitly
(`now` as epoch seconds, and the rendered year string where the HTML
template embeds the current year).
-/

namespace BlogAI

/-- Embeds `ArticleStatus` from `serverless/src/models.rs` (serialized lowercase). -/
inductive ArticleStatus where
  | pending
  | approved
  | staged
  | published
  | rejected
  deriving DecidableEq, Repr

/-- Embeds `Translation` from `serverless/src/models.rs`. -/
structure Translation where
  title : String
  content : String
  edited : Bool
  edited_at : Option Int
  deriving DecidableEq, Repr

/-- Embeds `Translations` from `serverless/src/models.rs`. -/
structure Translations where
  es : Translation
  uk : Translation
  deriving DecidableEq, Repr

/-- Embeds `ArticleContent` from `serverless/src/models.rs`. -/
structure ArticleContent where
  original_html : String
  text : String
  images : List String
  deriving DecidableEq, Repr

/-- Embeds `ArticleMetadata` from `serverless/src/models.rs`. -/
structure ArticleMetadata where
  word_count : Nat
  reading_time : String
  tags : List String
  deriving DecidableEq, Repr

/-- Embeds `PublishingMetadata` from `serverless/src/models.rs`.  `version` is a
`u32` counter in the source; it is modelled as a `Nat` on which every
increment is taken modulo `2^32`, the release-build wrap-around
semantics of Rust's `+= 1` on `u32`. -/
structure PublishingMetadata where
  staged_at : Option Int
  staged_by : Option String
  published_at : Option Int
  published_by : Option String
  staging_url : Option String
  production_url : Option String
  version : Nat
  deriving DecidableEq, Repr

/-- Embeds `Article` from `serverless/src/models.rs` (the record the scraper
`Publisher` reads and writes through DynamoDB). -/
structure Article where
  id : String
  source : String
  source_url : String
  title : String
  author : String
  published_date : String
  scraped_at : Int
  status : ArticleStatus
  content : ArticleContent
  translations : Option Translations
  metadata : ArticleMetadata
  publishing : PublishingMetadata
  deriving DecidableEq, Repr

/-! ### Object store and article table -/

/-- S3 `get_object`-style lookup over the association-list model. -/
def s3get (s3 : List (String × String)) (key : String) : Option String :=
  (s3.find? (fun kv => kv.1 == key)).map Prod.snd

/-- S3 `put_object` / `copy_object`-destination semantics: the key is
overwritten.  The association list is kept duplicate-free. -/
def s3put (s3 : List (String × String)) (key content : String) :
    List (String × String) :=
  (key, content) :: s3.filter (fun kv => kv.1 != key)

/-- Combined system state: the DynamoDB article table (keyed by id) and
the S3 bucket. -/
structure SysState where
  articles : List (String × Article)
  s3 : List (String × String)
  deriving DecidableEq, Repr

/-- Embeds `Storage::get_article` (`scraper-rust/src/storage.rs`). -/
def getArticle (st : SysState) (id : String) : Option Article :=
  (st.articles.find? (fun kv => kv.1 == id)).map Prod.snd

/-- Embeds `Storage::save_article` (`scraper-rust/src/storage.rs`): whole-record
`put_item`, keyed by the record's own id. -/
def saveArticle (st : SysState) (a : Article) : SysState :=
  { st with articles := (a.id, a) :: st.articles.filter (fun kv => kv.1 != a.id) }

/-- Embeds `Storage::upload_html` (`scraper-rust/src/storage.rs`): `put_object`. -/
def uploadHtml (st : SysState) (key content : String) : SysState :=
  { st with s3 := s3put st.s3 key content }

/-- Embeds `Storage::copy_s3_file` (`scraper-rust/src/storage.rs`): S3
`copy_object`.  Fails when the backend fails (`copyFail`) or when the
source key does not exist. -/
def copyS3File (copyFail : String → String → Bool) (st : SysState)
    (sourceKey destKey : String) : Option SysState :=
  if copyFail sourceKey destKey then none
  else
    match s3get st.s3 sourceKey with
    | none => none
    | some content => some (uploadHtml st destKey content)

/-! ### Blog-service admin API (`blog-service-rust`) -/

/-- Embeds `PublishingMetadata` from `blog-service-rust/src/storage.rs`
(identical shape to the scraper's).  `version` is a `u32`; as above,
every increment is taken modulo `2^32`. -/
structure SvcPublishing where
  staged_at : Option Int
  staged_by : Option String
  published_at : Option Int
  published_by : Option String
  staging_url : Option String
  production_url : Option String
  version : Nat
  deriving DecidableEq, Repr

/-- Embeds `Article` from `blog-service-rust/src/storage.rs`: same record shape as
the scraper's, except that `status` is a plain lowercase string. -/
structure SvcArticle where
  id : String
  source : String
  source_url : String
  title : String
  author : String
  published_date : String
  scraped_at : Int
  status : String
  content : ArticleContent
  translations : Option Translations
  metadata : ArticleMetadata
  publishing : SvcPublishing
  deriving DecidableEq, Repr

/-- The axum `StatusCode` values the smart-publish handlers return. -/
inductive HttpStatus where
  | badRequest
  | notFound
  | internalServerError
  deriving DecidableEq, Repr

/-- Embeds `PublishResponse` from `blog-service-rust/src/admin/smart_publish.rs`. -/
structure PublishResponse where
  message : String
  staging_url : Option String
  production_url : Option String
  version : Option Nat
  deriving DecidableEq, Repr

/-- Blog-service state: the article table plus the (never touched by the
smart-publish handlers) object store. -/
structure SvcState where
  articles : List (String × SvcArticle)
  s3 : List (String × String)
  deriving DecidableEq, Repr

/-- Embeds `Storage::get_article` on the blog-service side. -/
def svcGetArticle (st : SvcState) (id : String) : Option SvcArticle :=
  (st.articles.find? (fun kv => kv.1 == id)).map Prod.snd

/-- Embeds `Storage::update_article` on the blog-service side (whole-record
`put_item`, keyed by the record's own id). -/
def svcUpdateArticle (st : SvcState) (a : SvcArticle) : SvcState :=
  { st with articles := (a.id, a) :: st.articles.filter (fun kv => kv.1 != a.id) }

/-- Embeds `publish_to_staging` from `blog-service-rust/src/admin/smart_publish.rs`.
State-passing form: the returned state is the state at the point the
handler returns (hence the input state on every error path, all of which
precede the `update_article` call). -/
def svcPublishToStaging (st : SvcState) (id : String) (now : Int) :
    SvcState × Except HttpStatus PublishResponse :=
  match svcGetArticle st id with
  | none => (st, .error .notFound)
  | some article =>
    if article.status != "approved" && article.status != "staged" then
      (st, .error .badRequest)
    else
      let stagingUrl := "https://staging.yourdomain.com/articles/" ++ id ++ "-en.html"
      let a2 : SvcArticle :=
        { article with
          status := "staged"
          publishing :=
            { article.publishing with
              staged_at := some now
              staged_by := some "admin"
              staging_url := some stagingUrl } }
      (svcUpdateArticle st a2,
       .ok { message := "Article published to staging"
             staging_url := some stagingUrl
             production_url := none
             version := some a2.publishing.version })

/-- Embeds `publish_to_production` from
`blog-service-rust/src/admin/smart_publish.rs`.  Performs no object-store
operation on any path: it only updates the article record (the S3 file
operations live in the scraper Lambda's `Publisher`). -/
def svcPublishToProduction (st : SvcState) (id : String) (now : Int) :
    SvcState × Except HttpStatus PublishResponse :=
  match svcGetArticle st id with
  | none => (st, .error .notFound)
  | some article =>
    if article.status != "staged" && article.status != "published" then
      (st, .error .badRequest)
    else
      let productionUrl := "https://yourdomain.com/articles/" ++ id ++ "-en.html"
      let a2 : SvcArticle :=
        { article with
          status := "published"
          publishing :=
            { article.publishing with
              published_at := some now
              published_by := some "admin"
              version := (article.publishing.version + 1) % 4294967296
              production_url := some productionUrl } }
      (svcUpdateArticle st a2,
       .ok { message := "Article published to production"
             staging_url := none
             production_url := some productionUrl
             version := some a2.publishing.version })

/-! ### Calendar arithmetic (the chrono calls the Publisher makes)

`Publisher` uses chrono for exactly four things: formatting `Utc::now()`
as `%Y-%m-%d-%H-%M` backup-folder names, parsing those names back via
`DateTime::parse_from_rfc3339` in `parse_timestamp`, and the two display
formatters in the HTML generator.  These are embedded with the standard
proleptic-Gregorian civil-day conversions.  Note `/` and `%` on `Int`
are floor division / nonnegative remainder here, which for the positive
divisors below agrees with the intended mathematical definition. -/

/-- Embeds `str::split(char)` over a character list: splitting an empty string
yields one empty group, and each separator starts a new group (Rust and
Lean `splitOn` semantics alike). -/
def splitOnChar (sep : Char) : List Char → List (List Char)
  | [] => [[]]
  | c :: rest =>
    if c == sep then [] :: splitOnChar sep rest
    else
      match splitOnChar sep rest with
      | [] => [[c]]
      | g :: gs => (c :: g) :: gs

/-- Embeds `str::split(char)` on strings. -/
def strSplit (sep : Char) (s : String) : List String :=
  (splitOnChar sep s.data).map String.mk

/-- Embeds `str::contains(substring)`: does `pat` occur in `cs`? -/
def hasSubseq (pat : List Char) : List Char → Bool
  | [] => pat.isPrefixOf []
  | c :: rest => pat.isPrefixOf (c :: rest) || hasSubseq pat rest

/-- Embeds `str::contains(substring)` on strings. -/
def strContains (s pat : String) : Bool :=
  hasSubseq pat.data s.data

/-- Fuelled worker for `str::replace`: left-to-right, non-overlapping
replacement of every occurrence.  One unit of fuel is spent per consumed
character, so fuel `cs.length` is always enough (the source never calls
`replace` with an empty pattern). -/
def replaceAux (pat rep : List Char) : Nat → List Char → List Char
  | _, [] => []
  | 0, cs => cs
  | Nat.succ fuel, c :: rest =>
    if pat.isPrefixOf (c :: rest) && !pat.isEmpty then
      rep ++ replaceAux pat rep fuel (rest.drop (pat.length - 1))
    else
      c :: replaceAux pat rep fuel rest

/-- Embeds `str::replace(pat, rep)` (replace all occurrences). -/
def replaceStr (s pat rep : String) : String :=
  String.mk (replaceAux pat.data rep.data s.data.length s.data)

/-- Digit-string test. -/
def isDigits (s : String) : Bool :=
  !s.data.isEmpty && s.data.all Char.isDigit

/-- Decimal value of a digit string. -/
def digitsNat (s : String) : Nat :=
  s.data.foldl (fun n c => n * 10 + (c.toNat - 48)) 0

/-- Gregorian leap-year test. -/
def isLeap (y : Int) : Bool :=
  (y % 4 == 0 && y % 100 != 0) || y % 400 == 0

/-- Days in a month of a given year (month numbered 1–12). -/
def daysInMonth (y : Int) (m : Nat) : Nat :=
  if m == 2 then (if isLeap y then 29 else 28)
  else if m == 4 || m == 6 || m == 9 || m == 11 then 30
  else 31

/-- Days since 1970-01-01 of a civil date (Hinnant's `days_from_civil`). -/
def daysFromCivil (y : Int) (m d : Nat) : Int :=
  let yAdj : Int := if m ≤ 2 then y - 1 else y
  let era : Int := yAdj / 400
  let yoe : Int := yAdj - era * 400
  let mp : Nat := (m + 9) % 12
  let doy : Int := ((153 * mp + 2) / 5 : Nat) + (d : Int) - 1
  let doe : Int := yoe * 365 + yoe / 4 - yoe / 100 + doy
  era * 146097 + doe - 719468

/-- Civil date of a number of days since 1970-01-01 (Hinnant's
`civil_from_days`): `(year, month, day)`. -/
def civilFromDays (z : Int) : Int × Nat × Nat :=
  let z2 := z + 719468
  let era : Int := z2 / 146097
  let doe : Nat := (z2 - era * 146097).toNat
  let yoe : Nat := (doe - doe / 1460 + doe / 36524 - doe / 146096) / 365
  let doy : Nat := doe - (365 * yoe + yoe / 4 - yoe / 100)
  let mp : Nat := (5 * doy + 2) / 153
  let d : Nat := doy - (153 * mp + 2) / 5 + 1
  let m : Nat := if mp < 10 then mp + 3 else mp - 9
  let y : Int := (yoe : Int) + era * 400
  (if m ≤ 2 then y + 1 else y, m, d)

/-- Two-digit zero-padded decimal rendering. -/
def pad2 (n : Nat) : String :=
  if n < 10 then "0" ++ toString n else toString n

/-- Four-digit zero-padded decimal rendering of a (nonnegative) year. -/
def pad4 (y : Int) : String :=
  let n := y.toNat
  if n < 10 then "000" ++ toString n
  else if n < 100 then "00" ++ toString n
  else if n < 1000 then "0" ++ toString n
  else toString n

/-- Embeds `chrono::DateTime::parse_from_rfc3339` restricted to the
`YYYY-MM-DDTHH:MM:SSZ` shape (fixed-width numeric fields, real calendar
date).  Offsets other than `Z`, fractional and leap seconds are treated
as unparseable; none of these occur in strings the Publisher builds. -/
def parseRfc3339Z (s : String) : Option (Int × Nat × Nat × Nat × Nat × Nat) :=
  match strSplit 'T' s with
  | [datePart, timePart] =>
    if ['Z'].isSuffixOf timePart.data then
      match strSplit '-' datePart, strSplit ':' (String.mk timePart.data.dropLast) with
      | [ys, ms, ds], [hs, mis, ss] =>
        if ys.data.length == 4 && isDigits ys && ms.data.length == 2 && isDigits ms
            && ds.data.length == 2 && isDigits ds && hs.data.length == 2 && isDigits hs
            && mis.data.length == 2 && isDigits mis && ss.data.length == 2 && isDigits ss then
          let y : Int := (digitsNat ys : Int)
          let mo := digitsNat ms
          let d := digitsNat ds
          let h := digitsNat hs
          let mi := digitsNat mis
          let sec := digitsNat ss
          if 1 ≤ mo ∧ mo ≤ 12 ∧ 1 ≤ d ∧ d ≤ daysInMonth y mo ∧ h ≤ 23 ∧ mi ≤ 59 ∧ sec ≤ 59 then
            some (y, mo, d, h, mi, sec)
          else none
        else none
      | _, _ => none
    else none
  | _ => none

/-- Epoch seconds of a parsed UTC civil datetime. -/
def epochOf (y : Int) (mo d h mi sec : Nat) : Int :=
  daysFromCivil y mo d * 86400 + (h : Int) * 3600 + (mi : Int) * 60 + (sec : Int)

/-- Embeds `Utc::now().format("%Y-%m-%d-%H-%M")` — the backup-folder timestamp
the Publisher generates from the current time. -/
def formatBackupTs (now : Int) : String :=
  let days := now / 86400
  let sod := (now % 86400).toNat
  let c := civilFromDays days
  pad4 c.1 ++ "-" ++ pad2 c.2.1 ++ "-" ++ pad2 c.2.2 ++ "-"
    ++ pad2 (sod / 3600) ++ "-" ++ pad2 (sod % 3600 / 60)

/-- Embeds `Publisher::parse_timestamp` (`scraper-rust/src/publisher.rs`): split
on `-`; anything but exactly five components yields 0; otherwise rebuild
an RFC3339 string, parse it, and fall back to 0 on parse failure. -/
def parseTimestamp (timestamp : String) : Int :=
  match strSplit '-' timestamp with
  | [p0, p1, p2, p3, p4] =>
    let datetimeStr := p0 ++ "-" ++ p1 ++ "-" ++ p2 ++ "T" ++ p3 ++ ":" ++ p4 ++ ":00Z"
    match parseRfc3339Z datetimeStr with
    | some (y, mo, d, h, mi, sec) => epochOf y mo d h mi sec
    | none => 0
  | _ => 0

/-! ### The scraper `Publisher` (`scraper-rust/src/publisher.rs`) -/

/-- The failure modes of the Publisher operations modelled here.
`copyFailed` carries the failing copy's source and destination keys;
`cacheInvalidationFailed` is a failed CloudFront `create_invalidation`
call (propagated with `?` in the source); `noBackupsAvailable` is the
"No backups available" error of `rollback`. -/
inductive PubErr where
  | articleNotFound
  | copyFailed (src dst : String)
  | cacheInvalidationFailed
  | noBackupsAvailable
  | renderPanic
  deriving DecidableEq, Repr

/-- The supported languages, in the order the Publisher iterates them. -/
def langs : List String := ["en", "es", "uk"]

/-- Embeds `Publisher::invalidate_production_cache`: a no-op when CloudFront is
not configured, otherwise an SDK call that can fail (`invFail`). -/
def invalidateCache (cfConfigured invFail : Bool) : Option PubErr :=
  if cfConfigured && invFail then some .cacheInvalidationFailed else none

/-- Sequential copies with `?`-propagation: abort on the first failing
copy, keeping the effects already performed. -/
def copySeq (copyFail : String → String → Bool) :
    SysState → List (String × String) → SysState × Option PubErr
  | st, [] => (st, none)
  | st, (src, dst) :: rest =>
    match copyS3File copyFail st src dst with
    | none => (st, some (.copyFailed src dst))
    | some st2 => copySeq copyFail st2 rest

/-- Embeds `Publisher::backup_article_pdp`: copy each existing production PDP of
this article into a timestamped backup folder; a failing copy (e.g. a
missing production artifact on a first publish) is skipped via
`if let Ok(_)`.  Returns the backup prefix; never fails. -/
def backupArticlePdp (copyFail : String → String → Bool) (now : Int)
    (st : SysState) (articleId : String) : SysState × String :=
  let bp := "backups/articles/" ++ articleId ++ "/" ++ formatBackupTs now ++ "/"
  let st2 := langs.foldl
    (fun s lang =>
      match copyS3File copyFail s
          ("production/articles/" ++ articleId ++ "-" ++ lang ++ ".html")
          (bp ++ articleId ++ "-" ++ lang ++ ".html") with
      | some s2 => s2
      | none => s)
    st
  (st2, bp)

/-- Embeds `Publisher::backup_plp`: the three per-language listing pages are
backed up with skip-on-failure, but the final `production/index.html`
copy uses `?` and so propagates its failure. -/
def backupPlp (copyFail : String → String → Bool) (now : Int)
    (st : SysState) : SysState × Option PubErr × String :=
  let bp := "backups/plp/" ++ formatBackupTs now ++ "/"
  let st2 := langs.foldl
    (fun s lang =>
      match copyS3File copyFail s
          ("production/index-" ++ lang ++ ".html")
          (bp ++ "index-" ++ lang ++ ".html") with
      | some s2 => s2
      | none => s)
    st
  match copyS3File copyFail st2 "production/index.html" (bp ++ "index.html") with
  | none => (st2, some (.copyFailed "production/index.html" (bp ++ "index.html")), bp)
  | some st3 => (st3, none, bp)

/-- Embeds `Publisher::promote_article_staging_to_production`: copy the three
staging PDPs of the article to their production keys, aborting on the
first failure. -/
def promoteArticle (copyFail : String → String → Bool) (st : SysState)
    (articleId : String) : SysState × Option PubErr :=
  copySeq copyFail st (langs.map (fun lang =>
    ("staging/articles/" ++ articleId ++ "-" ++ lang ++ ".html",
     "production/articles/" ++ articleId ++ "-" ++ lang ++ ".html")))

/-- Embeds `Publisher::promote_plp_staging_to_production`: the three
per-language listing pages plus the default `index.html`, aborting on
the first failure. -/
def promotePlp (copyFail : String → String → Bool) (st : SysState) :
    SysState × Option PubErr :=
  copySeq copyFail st
    ((langs.map (fun lang =>
        ("staging/index-" ++ lang ++ ".html", "production/index-" ++ lang ++ ".html")))
      ++ [("staging/index.html", "production/index.html")])

/-- The metadata update step 3 of `publish_article_to_production`. -/
def publishedArticle (a : Article) (adminUser : String) (now : Int) : Article :=
  { a with
    status := .published
    publishing :=
      { a.publishing with
        published_at := some now
        published_by := some adminUser
        production_url := some ("https://yourdomain.com/articles/" ++ a.id ++ "-en.html")
        version := (a.publishing.version + 1) % 4294967296 } }

/-- Embeds `Publisher::publish_article_to_production`: fetch the article (no
status check in this function), back up existing production PDPs,
promote the staging PDPs, persist the updated record, then invalidate
the cache.  Every `?`-failure aborts with effects so far kept. -/
def publishArticleToProduction (cfConfigured : Bool)
    (copyFail : String → String → Bool) (invFail : Bool) (now : Int)
    (st : SysState) (articleId adminUser : String) : SysState × Option PubErr :=
  match getArticle st articleId with
  | none => (st, some .articleNotFound)
  | some article =>
    let st1 := (backupArticlePdp copyFail now st article.id).1
    match promoteArticle copyFail st1 article.id with
    | (st2, some e) => (st2, some e)
    | (st2, none) =>
      let st3 := saveArticle st2 (publishedArticle article adminUser now)
      (st3, invalidateCache cfConfigured invFail)

/-- Embeds `Publisher::publish_plp_to_production`: backup, promote, invalidate;
no article metadata is touched. -/
def publishPlpToProduction (cfConfigured : Bool)
    (copyFail : String → String → Bool) (invFail : Bool) (now : Int)
    (st : SysState) : SysState × Option PubErr :=
  match backupPlp copyFail now st with
  | (st1, some e, _) => (st1, some e)
  | (st1, none, _) =>
    match promotePlp copyFail st1 with
    | (st2, some e) => (st2, some e)
    | (st2, none) => (st2, invalidateCache cfConfigured invFail)

/-- Embeds `Storage::copy_s3_prefix`: list the objects under `sourcePre` once,
then copy each to the key obtained by substituting `destPre` for
`sourcePre`, aborting on the first failure. -/
def copyS3PrefixOp (copyFail : String → String → Bool) (st : SysState)
    (sourcePre destPre : String) : SysState × Option PubErr :=
  let keys := (st.s3.filter (fun kv => sourcePre.data.isPrefixOf kv.1.data)).map Prod.fst
  copySeq copyFail st (keys.map (fun k => (k, replaceStr k sourcePre destPre)))

/-- Embeds `Storage::list_s3_prefixes`: the `CommonPrefixes` of a
delimiter-`/` listing — for every stored key extending `pre`, the
prefix up to and including the next `/`, without duplicates.  (Real S3
returns these in lexicographic order; the theorems below hold for every
order, so the order of the underlying association list is not
normalised here.) -/
def listS3Prefixes (st : SysState) (pre : String) : List String :=
  (st.s3.filterMap (fun kv =>
    if pre.data.isPrefixOf kv.1.data then
      match splitOnChar '/' (kv.1.data.drop pre.data.length) with
      | [_] => none
      | c :: _ => some (String.mk (pre.data ++ c ++ ['/']))
      | [] => none
    else none)).eraseDups

/-- Embeds `BackupInfo` from `scraper-rust/src/publisher.rs`. -/
structure BackupInfo where
  timestamp : String
  path : String
  created_at : Int
  deriving DecidableEq, Repr

/-- The sort order of `list_backups` (`b.created_at.cmp(&a.created_at)`):
`newerFirst a b` holds when `a` was created at or after `b`. -/
def newerFirst (a b : BackupInfo) : Prop :=
  b.created_at ≤ a.created_at

instance : DecidableRel newerFirst := fun a b =>
  inferInstanceAs (Decidable (b.created_at ≤ a.created_at))

instance : IsTotal BackupInfo newerFirst :=
  ⟨fun a b => Int.le_total b.created_at a.created_at⟩

instance : IsTrans BackupInfo newerFirst :=
  ⟨fun _ _ _ hab hbc => le_trans hbc hab⟩

/-- Embeds `Publisher::list_backups`: enumerate `backups/` prefixes, drop any
containing `latest`, parse the timestamp out of the path, and sort by
parsed instant, newest first.  Rust's `sort_by` is a stable sort, and a
stable sort's output is uniquely determined by the comparator, so the
(stable) insertion sort used here produces the identical list. -/
def listBackups (st : SysState) : List BackupInfo :=
  (((listS3Prefixes st "backups/").filter
      (fun p => !strContains p "latest")).map
    (fun path =>
      let ts := replaceStr (replaceStr path "backups/" "") "/" ""
      { timestamp := ts, path := path, created_at := parseTimestamp ts })).insertionSort
    newerFirst

/-- The restore half of `Publisher::rollback`: full-prefix copy into
`production/`, then a global cache invalidation. -/
def rollbackTo (cfConfigured : Bool) (copyFail : String → String → Bool)
    (invFail : Bool) (st : SysState) (backupDir : String) :
    SysState × Option PubErr :=
  match copyS3PrefixOp copyFail st backupDir "production/" with
  | (st1, some e) => (st1, some e)
  | (st1, none) => (st1, invalidateCache cfConfigured invFail)

/-- Embeds `Publisher::rollback`: with an explicit timestamp, restore from
`backups/{ts}/`; otherwise restore from the first entry of
`list_backups()`, failing with `NoBackupsAvailable` when there is none. -/
def rollback (cfConfigured : Bool) (copyFail : String → String → Bool)
    (invFail : Bool) (st : SysState) (backupTimestamp : Option String) :
    SysState × Option PubErr :=
  match backupTimestamp with
  | some ts => rollbackTo cfConfigured copyFail invFail st ("backups/" ++ ts ++ "/")
  | none =>
    match listBackups st with
    | [] => (st, some .noBackupsAvailable)
    | b :: _ => rollbackTo cfConfigured copyFail invFail st b.path

/-! ### HTML generation (`scraper-rust/src/html_generator.rs`)

Only the article detail page (`generate_article_html`) is embedded: it
is the renderer `publish_article_to_staging` uses.  The `format!`
template is transcribed literally (with `\x7b`/`\x7d`/`\x27` escapes for
braces and apostrophes); the `Utc::now()` reads in the template (the
copyright year) are passed in as the explicit `nowYear` argument. -/

theorem copyS3File_articles {copyFail : String → String → Bool} {st st2 : SysState}
    {src dst : String} (h : copyS3File copyFail st src dst = some st2) :
    st2.articles = st.articles := by
  unfold copyS3File at h
  split at h
  · exact absurd h (by simp)
  · split at h
    · exact absurd h (by simp)
    · cases h; rfl

/-- A fold of skip-on-failure copies never touches the article table. -/
theorem foldlSkip_articles (g : SysState → String → Option SysState)
    (hg : ∀ s x s2, g s x = some s2 → s2.articles = s.articles) :
    ∀ (l : List String) (st : SysState),
      (l.foldl (fun s x => match g s x with | some s2 => s2 | none => s) st).articles
        = st.articles
  | [], _ => rfl
  | x :: l, st => by
    rw [List.foldl_cons]
    rcases hgx : g st x with _ | s2 <;> simp only [hgx]
    · exact foldlSkip_articles g hg l st
    · rw [foldlSkip_articles g hg l s2, hg st x s2 hgx]

theorem backupArticlePdp_articles (copyFail : String → String → Bool) (now : Int)
    (st : SysState) (articleId : String) :
    ((backupArticlePdp copyFail now st articleId).1).articles = st.articles :=
  foldlSkip_articles _ (fun _ _ _ h => copyS3File_articles h) langs st

theorem backupPlp_articles (copyFail : String → String → Bool) (now : Int)
    (st : SysState) :
    ((backupPlp copyFail now st).1).articles = st.articles := by
  unfold backupPlp
  dsimp only
  split
  · exact foldlSkip_articles _ (fun _ _ _ h => copyS3File_articles h) langs st
  next st3 heq =>
    rw [copyS3File_articles heq]
    exact foldlSkip_articles _ (fun _ _ _ h => copyS3File_articles h) langs st

theorem copySeq_articles (copyFail : String → String → Bool) :
    ∀ (pairs : List (String × String)) (st : SysState),
      ((copySeq copyFail st pairs).1).articles = st.articles
  | [], _ => rfl
  | (src, dst) :: rest, st => by
    unfold copySeq
    rcases h : copyS3File copyFail st src dst with _ | st2
    · simp only [h]
    · simp only [h]
      rw [copySeq_articles copyFail rest st2, copyS3File_articles h]

theorem getArticle_saveArticle_self (st : SysState) (a : Article) :
    getArticle (saveArticle st a) a.id = some a := by
  simp [getArticle, saveArticle]

theorem copyS3File_none_of_missing {copyFail : String → String → Bool}
    {st : SysState} {src : String} (dst : String) (h : s3get st.s3 src = none) :
    copyS3File copyFail st src dst = none := by
  unfold copyS3File
  split
  · rfl
  · rw [h]

theorem promoteArticle_articles (copyFail : String → String → Bool)
    (st : SysState) (articleId : String) :
    ((promoteArticle copyFail st articleId).1).articles = st.articles := by
  unfold promoteArticle
  exact copySeq_articles copyFail _ st

theorem promotePlp_articles (copyFail : String → String → Bool) (st : SysState) :
    ((promotePlp copyFail st).1).articles = st.articles := by
  unfold promotePlp
  exact copySeq_articles copyFail _ st

theorem copyS3PrefixOp_articles (copyFail : String → String → Bool)
    (st : SysState) (sourcePre destPre : String) :
    ((copyS3PrefixOp copyFail st sourcePre destPre).1).articles = st.articles := by
  unfold copyS3PrefixOp
  exact copySeq_articles copyFail _ st

theorem rollbackTo_articles (cfConfigured : Bool) (copyFail : String → String → Bool)
    (invFail : Bool) (st : SysState) (backupDir : String) :
    ((rollbackTo cfConfigured copyFail invFail st backupDir).1).articles = st.articles := by
  unfold rollbackTo
  rcases h : copyS3PrefixOp copyFail st backupDir "production/" with ⟨st1, e⟩
  have h1 : st1.articles = st.articles := by
    have := copyS3PrefixOp_articles copyFail st backupDir "production/"
    rw [h] at this
    exact this
  rcases e with _ | e <;> simp only [h] <;> exact h1

theorem rollback_articles (cfConfigured : Bool) (copyFail : String → String → Bool)
    (invFail : Bool) (st : SysState) (backupTimestamp : Option String) :
    ((rollback cfConfigured copyFail invFail st backupTimestamp).1).articles = st.articles := by
  unfold rollback
  rcases backupTimestamp with _ | ts
  · rcases h : listBackups st with _ | ⟨b, bs⟩
    · simp only [h]
    · simp only [h]
      exact rollbackTo_articles cfConfigured copyFail invFail st b.path
  · exact rollbackTo_articles cfConfigured copyFail invFail st _

theorem svcGetArticle_update_self (st : SvcState) (a : SvcArticle) :
    svcGetArticle (svcUpdateArticle st a) a.id = some a := by
  simp [svcGetArticle, svcUpdateArticle]

/-! ### Shared concrete states for witnesses -/

/-- A concrete pending article used by witnesses. -/
def wSvcPending : SvcArticle :=
  { id := "a1", source := "testai", source_url := "https://e.com/x",
    title := "T", author := "A", published_date := "2024-01-01T00:00:00Z",
    scraped_at := 0, status := "pending",
    content := { original_html := "", text := "t", images := [] },
    translations := none,
    metadata := { word_count := 1, reading_time := "1 min", tags := [] },
    publishing := { staged_at := none, staged_by := none, published_at := none,
                    published_by := none, staging_url := none, production_url := none,
                    version := 0 } }

/-- A concrete blog-service state holding the pending article. -/
def wSvcSt : SvcState :=
  { articles := [("a1", wSvcPending)], s3 := [("production/articles/a1-en.html", "old")] }

/-- The pending witness article with status `staged`. -/
def wSvcStaged : SvcArticle := { wSvcPending with status := "staged" }

/-- A concrete blog-service state holding a staged article. -/
def wSvcStagedSt : SvcState := { articles := [("a1", wSvcStaged)], s3 := [] }

/-- A concrete staged scraper-side article (version 4). -/
def wArt : Article :=
  { id := "a1", source := "testai", source_url := "https://e.com/x",
    title := "T", author := "A", published_date := "2024-01-01T00:00:00Z",
    scraped_at := 0, status := .staged,
    content := { original_html := "", text := "t", images := [] },
    translations := none,
    metadata := { word_count := 1, reading_time := "1 min", tags := [] },
    publishing := { staged_at := some 3, staged_by := some "alice", published_at := none,
                    published_by := none,
                    staging_url := some "https://staging.yourdomain.com/articles/a1-en.html",
                    production_url := none, version := 4 } }

/-- A concrete scraper-side state where both the article and the PLP
staging artifacts exist and `production/index.html` exists, so backup
and promote succeed for both operations. -/
def wFullSt : SysState :=
  { articles := [("a1", wArt)]
    s3 := [("staging/articles/a1-en.html", "hen"),
           ("staging/articles/a1-es.html", "hes"),
           ("staging/articles/a1-uk.html", "huk"),
           ("staging/index-en.html", "ien"),
           ("staging/index-es.html", "ies"),
           ("staging/index-uk.html", "iuk"),
           ("staging/index.html", "idx"),
           ("production/index.html", "pidx")] }

/-- A concrete first-ever-PLP-publish state: staging listing pages
exist, production is empty. -/
def wPlpFreshSt : SysState :=
  { articles := []
    s3 := [("staging/index-en.html", "ien"),
           ("staging/index-es.html", "ies"),
           ("staging/index-uk.html", "iuk"),
           ("staging/index.html", "idx")] }

/-- A concrete scraper-side state whose `en` staging artifact is
missing, so the promote step fails on its first copy. -/
def wFailSt : SysState :=
  { articles := [("a1", wArt)]
    s3 := [("staging/articles/a1-es.html", "hes"),
           ("staging/articles/a1-uk.html", "huk")] }

/-- A concrete scraper-side state: the staged article, its three staging
PDPs, and one pre-existing backup. -/
def wProdSt : SysState :=
  { articles := [("a1", wArt)]
    s3 := [("staging/articles/a1-en.html", "hen"),
           ("staging/articles/a1-es.html", "hes"),
           ("staging/articles/a1-uk.html", "huk"),
           ("backups/2024-11-08-14-30/a1-en.html", "old")] }

/-- The staged witness article with status reset to Pending. -/
def wPendingArt : Article := { wArt with status := .pending }

/-- A concrete state holding the Pending article and its staging
artifacts, on which the scraper's ungated production publish runs. -/
def wPendingSt : SysState :=
  { articles := [("a1", wPendingArt)]
    s3 := [("staging/articles/a1-en.html", "hen"),
           ("staging/articles/a1-es.html", "hes"),
           ("staging/articles/a1-uk.html", "huk")] }

/-- The staged article at the `u32` boundary version 4294967295. -/
def wWrapArt : Article :=
  { wArt with publishing := { wArt.publishing with version := 4294967295 } }

/-- A concrete state holding the boundary-version article and its
staging artifacts. -/
def wWrapSt : SysState :=
  { articles := [("a1", wWrapArt)]
    s3 := [("staging/articles/a1-en.html", "hen"),
           ("staging/articles/a1-es.html", "hes"),
           ("staging/articles/a1-uk.html", "huk")] }

/-! ### C2: version increments on publish, rollback leaves versions alone -/

/-- Counterexample to C2 as stated: `version` is a `u32`, and `+= 1`
wraps in release builds.  Publishing the article whose stored version is
4294967295 succeeds and stores version 0, which is not the previous
value plus one (4294967296). -/
theorem version_wraps_at_u32_counterexample :
    (publishArticleToProduction false (fun _ _ => false) false 99 wWrapSt "a1" "alice").2 = none ∧
    getArticle (publishArticleToProduction false (fun _ _ => false) false 99 wWrapSt "a1" "alice").1 "a1"
        = some (publishedArticle wWrapArt "alice" 99) ∧
    (publishedArticle wWrapArt "alice" 99).publishing.version = 0 ∧
    wWrapArt.publishing.version + 1 = 4294967296 := by
  refine ⟨?_, ?_, ?_, ?_⟩ <;> decide

/-- C2 amended: a successful `publish_to_production` stores the article
with publishing version `(previous + 1) % 2^32` — equal to the previous
value plus one for every version below the `u32` boundary — both in the
scraper Publisher and in the admin endpoint, while `rollback` — with or
without an explicit timestamp — never touches the article table, so
every article's version is unchanged by it. -/
theorem publish_version_increment_mod_rollback_preserves :
    (∀ (cfConfigured : Bool) (copyFail : String → String → Bool) (invFail : Bool)
        (now : Int) (st : SysState) (id adminUser : String) (a : Article),
      getArticle st id = some a → a.id = id →
      (publishArticleToProduction cfConfigured copyFail invFail now st id adminUser).2 = none →
      getArticle (publishArticleToProduction cfConfigured copyFail invFail now st id adminUser).1 id
          = some (publishedArticle a adminUser now) ∧
        (publishedArticle a adminUser now).publishing.version
          = (a.publishing.version + 1) % 4294967296) ∧
    (∀ (cfConfigured : Bool) (copyFail : String → String → Bool) (invFail : Bool)
        (st : SysState) (backupTimestamp : Option String),
      ((rollback cfConfigured copyFail invFail st backupTimestamp).1).articles = st.articles) ∧
    (∀ (st : SvcState) (id : String) (now : Int) (a : SvcArticle) (r : PublishResponse),
      svcGetArticle st id = some a → a.id = id →
      (svcPublishToProduction st id now).2 = .ok r →
      r.version = some ((a.publishing.version + 1) % 4294967296) ∧
      ∃ a2, svcGetArticle (svcPublishToProduction st id now).1 id = some a2 ∧
        a2.publishing.version = (a.publishing.version + 1) % 4294967296) := by
  refine ⟨?_, ?_, ?_⟩
  · intro cfConfigured copyFail invFail now st id adminUser a ha hid hok
    unfold publishArticleToProduction at hok ⊢
    rw [ha] at hok ⊢
    dsimp only at hok ⊢
    rcases hp : promoteArticle copyFail ((backupArticlePdp copyFail now st a.id).1) a.id
      with ⟨st2, e2⟩
    rw [hp] at hok
    rcases e2 with _ | e2
    · refine ⟨?_, rfl⟩
      have : (publishedArticle a adminUser now).id = id := hid
      exact this ▸ getArticle_saveArticle_self st2 (publishedArticle a adminUser now)
    · exact absurd hok (by simp)
  · intro cfConfigured copyFail invFail st backupTimestamp
    exact rollback_articles cfConfigured copyFail invFail st backupTimestamp
  · intro st id now a r ha hid hok
    unfold svcPublishToProduction at hok ⊢
    rw [ha] at hok ⊢
    dsimp only at hok ⊢
    by_cases hb : (a.status != "staged" && a.status != "published") = true
    · rw [if_pos hb] at hok
      exact absurd hok (by simp)
    · rw [if_neg hb] at hok ⊢
      refine ⟨?_, ?_⟩
      · cases hok
        rfl
      · refine ⟨{ a with
            status := "published"
            publishing :=
              { a.publishing with
                published_at := some now
                published_by := some "admin"
                version := (a.publishing.version + 1) % 4294967296
                production_url := some ("https://yourdomain.com/articles/" ++ id ++ "-en.html") } },
          ?_, rfl⟩
        have h2 := svcGetArticle_update_self st
          { a with
            status := "published"
            publishing :=
              { a.publishing with
                published_at := some now
                published_by := some "admin"
                version := (a.publishing.version + 1) % 4294967296
                production_url := some ("https://yourdomain.com/articles/" ++ id ++ "-en.html") } }
        exact hid ▸ h2

/-- Witness for the amended C2: publishing the staged article `a1`
(version 4) with no CloudFront configured succeeds and stores version
(4 + 1) % 2^32 = 5; rollback leaves the article table unchanged; the
admin endpoint reports version 1 for the version-0 article. -/
theorem publish_version_increment_mod_rollback_preserves_witness :
    (getArticle (publishArticleToProduction false (fun _ _ => false) false 99 wProdSt "a1" "alice").1 "a1"
        = some (publishedArticle wArt "alice" 99) ∧
      (publishedArticle wArt "alice" 99).publishing.version
        = (wArt.publishing.version + 1) % 4294967296) ∧
    ((rollback false (fun _ _ => false) false wProdSt none).1).articles = wProdSt.articles ∧
    ({ message := "Article published to production", staging_url := none,
       production_url := some "https://yourdomain.com/articles/a1-en.html",
       version := some 1 : PublishResponse }.version
        = some ((wSvcStaged.publishing.version + 1) % 4294967296) ∧
      ∃ a2, svcGetArticle (svcPublishToProduction wSvcStagedSt "a1" 5).1 "a1" = some a2 ∧
        a2.publishing.version = (wSvcStaged.publishing.version + 1) % 4294967296) :=
  ⟨publish_version_increment_mod_rollback_preserves.1 false (fun _ _ => false) false 99 wProdSt
      "a1" "alice" wArt (by decide) (by decide) (by decide),
   publish_version_increment_mod_rollback_preserves.2.1 false (fun _ _ => false) false wProdSt none,
   publish_version_increment_mod_rollback_preserves.2.2 wSvcStagedSt "a1" 5 wSvcStaged
      { message := "Article published to production", staging_url := none,
        production_url := some "https://yourdomain.com/articles/a1-en.html",
        version := some 1 }
      (by decide) (by decide) (by rfl)⟩

/-! ### C3: the record is persisted as Published only after the promote
step has fully succeeded -/

/-- C3: in `publish_article_to_production`, if any copy of the promote
step fails then the operation aborts with that copy's error and the
stored article table — hence the article's status, version and
published_at — is exactly as before; conversely, if the stored table
changed at all, the promote step (all three staging-to-production
copies) must have succeeded. -/
theorem publish_aborts_on_promote_failure (cfConfigured : Bool)
    (copyFail : String → String → Bool) (invFail : Bool) (now : Int)
    (st : SysState) (id adminUser : String) (a : Article)
    (ha : getArticle st id = some a) :
    (∀ e, (promoteArticle copyFail ((backupArticlePdp copyFail now st a.id).1) a.id).2 = some e →
      (publishArticleToProduction cfConfigured copyFail invFail now st id adminUser).2 = some e ∧
      ((publishArticleToProduction cfConfigured copyFail invFail now st id adminUser).1).articles
        = st.articles) ∧
    (((publishArticleToProduction cfConfigured copyFail invFail now st id adminUser).1).articles
        ≠ st.articles →
      (promoteArticle copyFail ((backupArticlePdp copyFail now st a.id).1) a.id).2 = none) := by
  unfold publishArticleToProduction
  rw [ha]
  dsimp only
  rcases hp : promoteArticle copyFail ((backupArticlePdp copyFail now st a.id).1) a.id
    with ⟨st2, e2⟩
  have hart : st2.articles = st.articles := by
    have h1 := promoteArticle_articles copyFail ((backupArticlePdp copyFail now st a.id).1) a.id
    rw [hp] at h1
    rw [h1, backupArticlePdp_articles]
  refine ⟨?_, ?_⟩
  · intro e he
    have he2 : e2 = some e := by simpa using he
    subst he2
    exact ⟨rfl, hart⟩
  · intro hne
    rcases e2 with _ | e2
    · rfl
    · exact absurd hart hne

/-- Witness for C3: with the `en` staging artifact missing, the promote
step's first copy fails, `publish_article_to_production` reports exactly
that failure, and the article table is unchanged. -/
theorem publish_aborts_on_promote_failure_witness :
    (publishArticleToProduction false (fun _ _ => false) false 99 wFailSt "a1" "alice").2
        = some (.copyFailed "staging/articles/a1-en.html" "production/articles/a1-en.html") ∧
    ((publishArticleToProduction false (fun _ _ => false) false 99 wFailSt "a1" "alice").1).articles
        = wFailSt.articles :=
  (publish_aborts_on_promote_failure false (fun _ _ => false) false 99 wFailSt "a1" "alice"
      wArt (by decide)).1
    (.copyFailed "staging/articles/a1-en.html" "production/articles/a1-en.html")
    (by decide)

/-! ### C4 (corrected): cache-invalidation failure IS propagated -/

/-- Counterexample to C4 as stated: with CloudFront configured, all
copies succeeding and the `create_invalidation` call failing,
`publish_article_to_production` returns the cache-invalidation error —
the operation is *not* reported as an overall success — even though
backup, promote and the metadata update have all completed (the stored
record is Published at version 5). -/
theorem cache_invalidation_fatal_counterexample :
    (publishArticleToProduction true (fun _ _ => false) true 99 wProdSt "a1" "alice").2
        = some .cacheInvalidationFailed ∧
    getArticle (publishArticleToProduction true (fun _ _ => false) true 99 wProdSt "a1" "alice").1 "a1"
        = some (publishedArticle wArt "alice" 99) := by
  constructor <;> decide

/-- C4 amended: a failure of the cache-invalidation step is propagated
as the overall error of `publish_article_to_production` and of
`publish_plp_to_production` (the caller sees `success: false`), although
the backup, promote and metadata-update effects all persist — in
particular the stored record is already Published with its bumped
version. -/
theorem cache_invalidation_failure_propagates (copyFail : String → String → Bool)
    (now : Int) (st : SysState) (id adminUser : String) (a : Article)
    (ha : getArticle st id = some a) (hid : a.id = id)
    (hpromote : (promoteArticle copyFail ((backupArticlePdp copyFail now st a.id).1) a.id).2 = none)
    (hplpB : ((backupPlp copyFail now st).2).1 = none)
    (hplpP : (promotePlp copyFail ((backupPlp copyFail now st).1)).2 = none) :
    ((publishArticleToProduction true copyFail true now st id adminUser).2
        = some .cacheInvalidationFailed ∧
      getArticle (publishArticleToProduction true copyFail true now st id adminUser).1 id
        = some (publishedArticle a adminUser now)) ∧
    (publishPlpToProduction true copyFail true now st).2 = some .cacheInvalidationFailed := by
  refine ⟨?_, ?_⟩
  · unfold publishArticleToProduction
    rw [ha]
    dsimp only
    rcases hp : promoteArticle copyFail ((backupArticlePdp copyFail now st a.id).1) a.id
      with ⟨st2, e2⟩
    rw [hp] at hpromote
    have he2 : e2 = none := hpromote
    subst he2
    refine ⟨rfl, ?_⟩
    have h2 := getArticle_saveArticle_self st2 (publishedArticle a adminUser now)
    have hid2 : (publishedArticle a adminUser now).id = id := hid
    exact hid2 ▸ h2
  · unfold publishPlpToProduction
    rcases hb : backupPlp copyFail now st with ⟨st1, eb, bp⟩
    rw [hb] at hplpB hplpP
    have heb : eb = none := hplpB
    subst heb
    dsimp only
    rcases hpp : promotePlp copyFail st1 with ⟨st2, ep⟩
    rw [hpp] at hplpP
    have hep : ep = none := hplpP
    subst hep
    rfl

/-- Witness for the amended C4: on the fully-staged state, both
operations report the cache-invalidation failure while the article
record is stored as Published at version 5. -/
theorem cache_invalidation_failure_propagates_witness :
    ((publishArticleToProduction true (fun _ _ => false) true 99 wFullSt "a1" "alice").2
        = some .cacheInvalidationFailed ∧
      getArticle (publishArticleToProduction true (fun _ _ => false) true 99 wFullSt "a1" "alice").1 "a1"
        = some (publishedArticle wArt "alice" 99)) ∧
    (publishPlpToProduction true (fun _ _ => false) true 99 wFullSt).2
        = some .cacheInvalidationFailed :=
  cache_invalidation_failure_propagates (fun _ _ => false) 99 wFullSt "a1" "alice" wArt
    (by decide) (by decide) (by decide) (by decide) (by decide)

/-! ### C6 (corrected): badly skipped and not-skipped backup copies -/

/-- Counterexample to C6 as stated: on a first-ever PLP publish
(production empty, staging listing pages present), the backup step is
claimed to skip all missing production artifacts including the default
`index.html`; in fact the `production/index.html` backup copy is made
with `?`, so its failure aborts `publish_plp_to_production`. -/
theorem plp_backup_default_index_counterexample :
    (publishPlpToProduction false (fun _ _ => false) false 0 wPlpFreshSt).2
        = some (.copyFailed "production/index.html"
            "backups/plp/1970-01-01-00-00/index.html") := by
  decide

/-- C6 amended: in the backup step, every *per-language* production
artifact that does not exist is skipped without error — a first-ever
article publish performs no backup copies and the PDP backup never
fails — and the PLP backup likewise skips its three per-language pages;
but the default `production/index.html` copy of the PLP backup is not
skipped: when that object is missing, the copy failure is propagated and
`publish_plp_to_production` aborts with it. -/
theorem backup_missing_artifacts_behavior (copyFail : String → String → Bool)
    (now : Int) (st : SysState) :
    (∀ articleId, (∀ lang ∈ langs,
        s3get st.s3 ("production/articles/" ++ articleId ++ "-" ++ lang ++ ".html") = none) →
      (backupArticlePdp copyFail now st articleId).1 = st) ∧
    (∀ c, (∀ lang ∈ langs, s3get st.s3 ("production/index-" ++ lang ++ ".html") = none) →
      s3get st.s3 "production/index.html" = some c →
      copyFail "production/index.html"
          ("backups/plp/" ++ formatBackupTs now ++ "/" ++ "index.html") = false →
      backupPlp copyFail now st =
        (uploadHtml st ("backups/plp/" ++ formatBackupTs now ++ "/" ++ "index.html") c, none,
         "backups/plp/" ++ formatBackupTs now ++ "/")) ∧
    (∀ (cfConfigured invFail : Bool),
      (∀ lang ∈ langs, s3get st.s3 ("production/index-" ++ lang ++ ".html") = none) →
      s3get st.s3 "production/index.html" = none →
      (publishPlpToProduction cfConfigured copyFail invFail now st).2 =
        some (.copyFailed "production/index.html"
          ("backups/plp/" ++ formatBackupTs now ++ "/" ++ "index.html"))) := by
  refine ⟨?_, ?_, ?_⟩
  · intro articleId hmiss
    unfold backupArticlePdp
    simp only [langs, List.foldl_cons, List.foldl_nil]
    rw [copyS3File_none_of_missing _ (hmiss "en" (by simp [langs]))]
    dsimp only
    rw [copyS3File_none_of_missing _ (hmiss "es" (by simp [langs]))]
    dsimp only
    rw [copyS3File_none_of_missing _ (hmiss "uk" (by simp [langs]))]
  · intro c hmiss hidx hcf
    unfold backupPlp
    simp only [langs, List.foldl_cons, List.foldl_nil]
    rw [copyS3File_none_of_missing _ (hmiss "en" (by simp [langs]))]
    dsimp only
    rw [copyS3File_none_of_missing _ (hmiss "es" (by simp [langs]))]
    dsimp only
    rw [copyS3File_none_of_missing _ (hmiss "uk" (by simp [langs]))]
    dsimp only
    unfold copyS3File
    rw [hcf, hidx]
    rfl
  · intro cfConfigured invFail hmiss hidx
    unfold publishPlpToProduction
    have hb : backupPlp copyFail now st =
        (st, some (.copyFailed "production/index.html"
          ("backups/plp/" ++ formatBackupTs now ++ "/" ++ "index.html")),
         "backups/plp/" ++ formatBackupTs now ++ "/") := by
      unfold backupPlp
      simp only [langs, List.foldl_cons, List.foldl_nil]
      rw [copyS3File_none_of_missing _ (hmiss "en" (by simp [langs]))]
      dsimp only
      rw [copyS3File_none_of_missing _ (hmiss "es" (by simp [langs]))]
      dsimp only
      rw [copyS3File_none_of_missing _ (hmiss "uk" (by simp [langs]))]
      dsimp only
      rw [copyS3File_none_of_missing _ hidx]
    rw [hb]

/-- Witness for the amended C6: a first-ever article publish on the
fresh state performs no backup writes, the PLP backup succeeds when only
`production/index.html` exists, and a fully-fresh PLP publish aborts on
the default index copy. -/
theorem backup_missing_artifacts_behavior_witness :
    ((backupArticlePdp (fun _ _ => false) 0 wPlpFreshSt "a1").1 = wPlpFreshSt ∧
      backupPlp (fun _ _ => false) 0 wFullSt =
        (uploadHtml wFullSt ("backups/plp/" ++ formatBackupTs 0 ++ "/" ++ "index.html") "pidx",
         none, "backups/plp/" ++ formatBackupTs 0 ++ "/")) ∧
    (publishPlpToProduction false (fun _ _ => false) false 0 wPlpFreshSt).2 =
      some (.copyFailed "production/index.html"
        ("backups/plp/" ++ formatBackupTs 0 ++ "/" ++ "index.html")) :=
  ⟨⟨(backup_missing_artifacts_behavior (fun _ _ => false) 0 wPlpFreshSt).1 "a1"
      (by decide),
    (backup_missing_artifacts_behavior (fun _ _ => false) 0 wFullSt).2.1 "pidx"
      (by decide) (by decide) (by decide)⟩,
   (backup_missing_artifacts_behavior (fun _ _ => false) 0 wPlpFreshSt).2.2 false false
      (by decide) (by decide)⟩

/-! ### C7 and C8: backup listing and latest-backup selection -/

/-- C7: `rollback` without an explicit timestamp fails with
`NoBackupsAvailable` when the backup set is empty, and otherwise
restores from the first listed backup prefix, whose parsed instant is
maximal among all listed backups. -/
theorem rollback_latest_selection (cfConfigured : Bool)
    (copyFail : String → String → Bool) (invFail : Bool) (st : SysState) :
    (listBackups st = [] →
      rollback cfConfigured copyFail invFail st none = (st, some .noBackupsAvailable)) ∧
    (∀ b bs, listBackups st = b :: bs →
      rollback cfConfigured copyFail invFail st none =
        rollbackTo cfConfigured copyFail invFail st b.path ∧
      ∀ b2 ∈ listBackups st, b2.created_at ≤ b.created_at) := by
  constructor
  · intro h
    unfold rollback
    rw [h]
  · intro b bs h
    constructor
    · unfold rollback
      rw [h]
    · intro b2 hb2
      have hs : List.Pairwise newerFirst (listBackups st) := by
        unfold listBackups
        exact List.sorted_insertionSort newerFirst _
      rw [h] at hs hb2
      rcases List.mem_cons.mp hb2 with rfl | hb2
      · exact le_refl _
      · exact (List.pairwise_cons.mp hs).1 b2 hb2

/-- Witness for C7: with no backups rollback rejects; with one backup
prefix it restores from it, and that prefix's instant is maximal. -/
theorem rollback_latest_selection_witness :
    rollback false (fun _ _ => false) false { articles := [], s3 := [] } none
        = ({ articles := [], s3 := [] }, some .noBackupsAvailable) ∧
    (rollback false (fun _ _ => false) false wProdSt none =
        rollbackTo false (fun _ _ => false) false wProdSt
          (⟨"2024-11-08-14-30", "backups/2024-11-08-14-30/", 1731076200⟩ : BackupInfo).path ∧
      ∀ b2 ∈ listBackups wProdSt, b2.created_at ≤
        (⟨"2024-11-08-14-30", "backups/2024-11-08-14-30/", 1731076200⟩ : BackupInfo).created_at) :=
  ⟨(rollback_latest_selection false (fun _ _ => false) false
      { articles := [], s3 := [] }).1 (by decide),
   (rollback_latest_selection false (fun _ _ => false) false wProdSt).2
      ⟨"2024-11-08-14-30", "backups/2024-11-08-14-30/", 1731076200⟩ [] (by decide)⟩

/-- C8: `list_backups` always returns entries sorted descending by the
parsed instant (most recent first); each entry's `created_at` is exactly
the parse of its timestamp component; and an unparseable timestamp —
wrong number of `-`-separated components, or a rebuilt RFC3339 string
chrono rejects — yields instant 0 (epoch), never an error (the function
is total by construction). -/
theorem listBackups_sorted_and_total (st : SysState) :
    List.Pairwise (fun x y : BackupInfo => y.created_at ≤ x.created_at) (listBackups st) ∧
    (∀ bi ∈ listBackups st, bi.created_at = parseTimestamp bi.timestamp) ∧
    (∀ s : String, (strSplit '-' s).length ≠ 5 → parseTimestamp s = 0) ∧
    (∀ (s p0 p1 p2 p3 p4 : String), strSplit '-' s = [p0, p1, p2, p3, p4] →
      parseRfc3339Z (p0 ++ "-" ++ p1 ++ "-" ++ p2 ++ "T" ++ p3 ++ ":" ++ p4 ++ ":00Z") = none →
      parseTimestamp s = 0) := by
  refine ⟨?_, ?_, ?_, ?_⟩
  · unfold listBackups
    exact List.sorted_insertionSort newerFirst _
  · intro bi hbi
    unfold listBackups at hbi
    have hmem := (List.perm_insertionSort newerFirst _).mem_iff.mp hbi
    rcases List.mem_map.mp hmem with ⟨path, _, rfl⟩
    rfl
  · intro s hlen
    unfold parseTimestamp
    split
    · next p0 p1 p2 p3 p4 heq => exact absurd (by rw [heq]; rfl) hlen
    · rfl
  · intro s p0 p1 p2 p3 p4 hsp hnone
    unfold parseTimestamp
    rw [hsp]
    dsimp only
    rw [hnone]

/-- Witness for C8: on a concrete bucket the listing is sorted, every
entry's instant is the parse of its timestamp, and the `articles` path
component (not a timestamp) parses to epoch zero. -/
theorem listBackups_sorted_and_total_witness :
    (∀ bi ∈ listBackups wProdSt, bi.created_at = parseTimestamp bi.timestamp) ∧
    parseTimestamp "articles" = 0 ∧
    parseTimestamp "2023-02-29-00-00" = 0 :=
  ⟨(listBackups_sorted_and_total wProdSt).2.1,
   (listBackups_sorted_and_total wProdSt).2.2.1 "articles" (by decide),
   (listBackups_sorted_and_total wProdSt).2.2.2 "2023-02-29-00-00"
      "2023" "02" "29" "00" "00" (by decide) (by decide)⟩

/-- C10: `rollback(Some(ts))` for a timestamp with no objects under
`backups/{ts}/` returns success while copying nothing: the
`copy_s3_prefix` loop iterates over an empty listing, so no production
key is written and no error (such as `NotFound`) is raised.  (The
trailing cache invalidation is the only other fallible step; it is taken
to succeed here, `invFail = false`.) -/
theorem rollback_empty_prefix_noop (cfConfigured : Bool)
    (copyFail : String → String → Bool) (st : SysState) (ts : String)
    (hempty : st.s3.filter
        (fun kv => ("backups/" ++ ts ++ "/").data.isPrefixOf kv.1.data) = []) :
    rollback cfConfigured copyFail false st (some ts) = (st, none) := by
  unfold rollback rollbackTo copyS3PrefixOp
  dsimp only
  rw [hempty]
  simp [copySeq, invalidateCache]

/-- Witness for C10: rolling back to the nonexistent timestamp
`2099-01-01-00-00` succeeds and the state is untouched. -/
theorem rollback_empty_prefix_noop_witness :
    rollback false (fun _ _ => false) false wProdSt (some "2099-01-01-00-00")
      = (wProdSt, none) :=
  rollback_empty_prefix_noop false (fun _ _ => false) wProdSt "2099-01-01-00-00"
    (by decide)

/-! ### C1 and C5: status gates of the admin publish endpoints -/

/-- Counterexample to C1 as stated: the claim's cited
`publish_article_to_production` — reachable through the scraper Lambda's
`action="publish"` path in `main.rs` — has no status gate: invoked on
the *Pending* article `a1` it succeeds (no `InvalidState` is ever
raised), writes this article's production keys (an object-store write),
and stores the record as Published. -/
theorem pending_publish_succeeds_counterexample :
    (publishArticleToProduction false (fun _ _ => false) false 99 wPendingSt "a1" "lambda").2 = none ∧
    s3get ((publishArticleToProduction false (fun _ _ => false) false 99 wPendingSt "a1" "lambda").1).s3
        "production/articles/a1-en.html" = some "hen" ∧
    getArticle (publishArticleToProduction false (fun _ _ => false) false 99 wPendingSt "a1" "lambda").1 "a1"
      = some (publishedArticle wPendingArt "lambda" 99) := by
  refine ⟨?_, ?_, ?_⟩ <;> decide

/-- C1 amended: the status gate exists only in the admin endpoint
`publish_to_production`: for every article whose status is neither
`staged` nor `published` it fails with the `InvalidState` rejection
(HTTP 400) and performs no object-store writes — it never touches S3 on
any path.  The scraper's `publish_article_to_production`, by contrast,
performs no status check: for an article of any status — Pending
included — whose promote step succeeds, it performs the backup and
production copies and stores the record as Published. -/
theorem production_status_gate_endpoint_only (st : SvcState) (id : String)
    (now : Int) (a : SvcArticle) (ha : svcGetArticle st id = some a)
    (h1 : a.status ≠ "staged") (h2 : a.status ≠ "published") :
    ((svcPublishToProduction st id now).2 = .error .badRequest ∧
      (svcPublishToProduction st id now).1 = st ∧
      (svcPublishToProduction st id now).1.s3 = st.s3) ∧
    (∀ (cfConfigured : Bool) (copyFail : String → String → Bool) (invFail : Bool)
        (now2 : Int) (st2 : SysState) (adminUser : String) (b : Article),
      getArticle st2 id = some b → b.id = id →
      (promoteArticle copyFail ((backupArticlePdp copyFail now2 st2 b.id).1) b.id).2 = none →
      (publishArticleToProduction cfConfigured copyFail invFail now2 st2 id adminUser).2
          = invalidateCache cfConfigured invFail ∧
      getArticle (publishArticleToProduction cfConfigured copyFail invFail now2 st2 id adminUser).1 id
          = some (publishedArticle b adminUser now2)) := by
  constructor
  · simp [svcPublishToProduction, ha, h1, h2]
  · intro cfConfigured copyFail invFail now2 st2 adminUser b hb hbid hprom
    unfold publishArticleToProduction
    rw [hb]
    dsimp only
    rcases hp : promoteArticle copyFail ((backupArticlePdp copyFail now2 st2 b.id).1) b.id
      with ⟨st3, e2⟩
    rw [hp] at hprom
    have he2 : e2 = none := hprom
    subst he2
    refine ⟨rfl, ?_⟩
    have hid2 : (publishedArticle b adminUser now2).id = id := hbid
    exact hid2 ▸ getArticle_saveArticle_self st3 (publishedArticle b adminUser now2)

/-- Witness for the amended C1: the pending article `a1` is rejected
with 400 by the endpoint with the state unchanged, while the scraper's
publish succeeds on the same Pending article and stores it Published. -/
theorem production_status_gate_endpoint_only_witness :
    ((svcPublishToProduction wSvcSt "a1" 17).2 = .error .badRequest ∧
      (svcPublishToProduction wSvcSt "a1" 17).1 = wSvcSt ∧
      (svcPublishToProduction wSvcSt "a1" 17).1.s3 = wSvcSt.s3) ∧
    ((publishArticleToProduction false (fun _ _ => false) false 99 wPendingSt "a1" "lambda").2
        = invalidateCache false false ∧
      getArticle (publishArticleToProduction false (fun _ _ => false) false 99 wPendingSt "a1" "lambda").1 "a1"
        = some (publishedArticle wPendingArt "lambda" 99)) :=
  ⟨(production_status_gate_endpoint_only wSvcSt "a1" 17 wSvcPending
      (by decide) (by decide) (by decide)).1,
   (production_status_gate_endpoint_only wSvcSt "a1" 17 wSvcPending
      (by decide) (by decide) (by decide)).2
      false (fun _ _ => false) false 99 wPendingSt "lambda" wPendingArt
      (by decide) (by decide) (by decide)⟩

/-- C5: for every article whose current status is neither `approved` nor
`staged`, `publish_to_staging` fails with the `InvalidState` rejection
(HTTP 400) and leaves the state untouched — in particular the stored
status is not set to `staged`. -/
theorem publishToStaging_invalid_state_rejected (st : SvcState) (id : String)
    (now : Int) (a : SvcArticle) (ha : svcGetArticle st id = some a)
    (h1 : a.status ≠ "approved") (h2 : a.status ≠ "staged") :
    (svcPublishToStaging st id now).2 = .error .badRequest ∧
    (svcPublishToStaging st id now).1 = st ∧
    svcGetArticle (svcPublishToStaging st id now).1 id = some a := by
  refine ⟨?_, ?_, ?_⟩ <;> simp [svcPublishToStaging, ha, h1, h2]

/-- Witness for C5: the pending article `a1` is rejected with 400; its
stored record is unchanged. -/
theorem publishToStaging_invalid_state_rejected_witness :
    (svcPublishToStaging wSvcSt "a1" 17).2 = .error .badRequest ∧
    (svcPublishToStaging wSvcSt "a1" 17).1 = wSvcSt ∧
    svcGetArticle (svcPublishToStaging wSvcSt "a1" 17).1 "a1" = some wSvcPending :=
  publishToStaging_invalid_state_rejected wSvcSt "a1" 17 wSvcPending
    (by decide) (by decide) (by decide)

end BlogAI
